import Mathlib

set_option maxHeartbeats 1000000

/-! Shallow embedding of the KubeProvisioner EC2 reconciliation core:
the helper DerefString (utils/helpers), the provider client functions
createEc2Instance, checkEC2InstanceExists and deleteEc2Instance
(internal/controller/aws.go), and the Reconcile driver
(internal/controller/ec2instance_controller.go). Go pointer fields are
modelled as Option, provider/API calls as values supplied by an
environment record, Go panics as an explicit outcome constructor, and
the observable side effects (provider calls and store writes) as an
ordered action list. -/

/-- derefString (utils/helpers): safely dereference a *string; returns the
pointed-to string, and the literal text "\x3cnil\x3e" when the pointer is nil. -/
def DerefString : Option String → String
  | some s => s
  | none => "<nil>"

/-- A provider-reported EC2 instance record (ec2types.Instance) restricted
to the fields the repository reads. Pointer fields are Option; StateName
models the Name reached through the State pointer (none when State is nil). -/
structure Ec2TypesInstance where
  InstanceId : Option String
  StateName : Option String
  PublicIpAddress : Option String
  PrivateIpAddress : Option String
  PublicDnsName : Option String
  PrivateDnsName : Option String
deriving Repr, DecidableEq

/-- computev1.CreatedInstanceInfo: the record createEc2Instance builds. -/
structure CreatedInstanceInfo where
  InstanceID : String
  State : String
  PublicIP : String
  PrivateIP : String
  PublicDNS : String
  PrivateDNS : String
deriving Repr, DecidableEq

/-- The six status fields the controller writes on an Ec2Instance. -/
structure Ec2InstanceStatus where
  InstanceID : String
  State : String
  PublicIP : String
  PrivateIP : String
  PublicDNS : String
  PrivateDNS : String
deriving Repr, DecidableEq

/-- The parts of computev1.Ec2Instance the Reconcile driver reads:
whether DeletionTimestamp is zero, the finalizer list, and the status. -/
structure Ec2Instance where
  DeletionTimestampIsZero : Bool
  Finalizers : List String
  Status : Ec2InstanceStatus
deriving Repr, DecidableEq

/-- Responses of the AWS calls made inside createEc2Instance:
RunInstances (its Instances list), the running waiter, and the follow-up
DescribeInstances (its Reservations, each a list of Instances). -/
structure CreateEnv where
  runInstances : Except String (List Ec2TypesInstance)
  runWait : Except String Unit
  describe : Except String (List (List Ec2TypesInstance))
deriving Repr

/-- The Go pair (*CreatedInstanceInfo, error) returned by createEc2Instance,
plus the two non-returning behaviours: nilNil is the (nil, nil) pair
returned when RunInstances yields no instances, and panics is a Go
nil-dereference or index-out-of-range panic. -/
inductive CreateOutcome
  | ok (info : CreatedInstanceInfo)
  | errOut (e : String)
  | nilNil
  | panics (msg : String)
deriving Repr, DecidableEq

/-- createEc2Instance (internal/controller/aws.go lines 69-180): run the
instance; an empty Instances list returns the Go (nil, nil) pair; then the
instance id pointer is dereferenced (line 108), the running waiter runs,
DescribeInstances runs, and the debug print at line 139 indexes
Reservations[0].Instances[0] and dereferences PublicDnsName and State
before the CreatedInstanceInfo is built with DerefString on each optional
address/DNS field (lines 162-169). -/
def createEc2Instance (env : CreateEnv) : CreateOutcome :=
  match env.runInstances with
  | .error e => .errOut ("failed to create EC2 instance: " ++ e)
  | .ok instances =>
    match instances with
    | [] => .nilNil
    | inst :: _ =>
      match inst.InstanceId with
      | none => .panics "nil pointer dereference: inst.InstanceId"
      | some instId =>
        match env.runWait with
        | .error e => .errOut ("failed to wait for instance to be running: " ++ e)
        | .ok _ =>
          match env.describe with
          | .error e => .errOut ("failed to describe EC2 instance: " ++ e)
          | .ok reservations =>
            match reservations with
            | [] => .panics "index out of range: Reservations"
            | res0 :: _ =>
              match res0 with
              | [] => .panics "index out of range: Instances"
              | instance0 :: _ =>
                match instance0.PublicDnsName with
                | none => .panics "nil pointer dereference: PublicDnsName"
                | some _ =>
                  match instance0.StateName with
                  | none => .panics "nil pointer dereference: State"
                  | some stName =>
                    .ok ⟨instId, stName,
                      DerefString instance0.PublicIpAddress,
                      DerefString instance0.PrivateIpAddress,
                      DerefString instance0.PublicDnsName,
                      DerefString instance0.PrivateDnsName⟩

/-- Responses of the AWS calls made inside deleteEc2Instance:
TerminateInstances (its TerminatingInstances, each carrying the Name
reached through its CurrentState pointer) and the terminated waiter. -/
structure DeleteEnv where
  terminateResult : Except String (List (Option String))
  termWait : Except String Unit
deriving Repr

/-- The Go pair (bool, error) returned by deleteEc2Instance, or a panic. -/
inductive DeleteOutcome
  | ret (b : Bool) (e : Option String)
  | panics (msg : String)
deriving Repr, DecidableEq

/-- deleteEc2Instance (internal/controller/aws.go lines 182-229): terminate
the instance; on error return (false, err); the log at line 202 indexes
TerminatingInstances[0] and dereferences its CurrentState; then wait for
termination, returning (false, err) on waiter failure and (true, nil) only
after the waiter confirms the terminated condition. -/
def deleteEc2Instance (env : DeleteEnv) : DeleteOutcome :=
  match env.terminateResult with
  | .error e => .ret false (some e)
  | .ok termInsts =>
    match termInsts with
    | [] => .panics "index out of range: TerminatingInstances"
    | t0 :: _ =>
      match t0 with
      | none => .panics "nil pointer dereference: CurrentState"
      | some _ =>
        match env.termWait with
        | .error e => .ret false (some e)
        | .ok _ => .ret true none

/-- Response of the DescribeInstances call inside checkEC2InstanceExists:
either the Reservations (each a list of Instances) or an error message. -/
inductive DescribeResponse
  | success (reservations : List (List Ec2TypesInstance))
  | failure (msg : String)
deriving Repr, DecidableEq

/-- Whether pat is a prefix of the character list. -/
def leadsWith : List Char → List Char → Bool
  | [], _ => true
  | _ :: _, [] => false
  | p :: ps, c :: cs => (p == c) && leadsWith ps cs

/-- Whether pat occurs as a contiguous sublist. -/
def containsSub (pat : List Char) : List Char → Bool
  | [] => leadsWith pat []
  | c :: t => leadsWith pat (c :: t) || containsSub pat t

/-- Go strings.Contains, as used on the describe error text. -/
def goStringContains (s pat : String) : Bool :=
  containsSub pat.data s.data

/-- The Go triple (bool, *ec2types.Instance, error) returned by
checkEC2InstanceExists, or a panic. -/
inductive CheckOutcome
  | ret (exist : Bool) (inst : Option Ec2TypesInstance) (e : Option String)
  | panics (msg : String)
deriving Repr, DecidableEq

/-- checkEC2InstanceExists (internal/controller/aws.go lines 34-66): on a
describe error whose text contains "InvalidInstanceID.NotFound" return
(false, nil, nil); on any other error return (false, nil, err); with no
reservations return (false, nil, nil); otherwise return
(true, &Reservations[0].Instances[0], nil), a panic when that first
reservation has no instances. -/
def checkEC2InstanceExists (resp : DescribeResponse) : CheckOutcome :=
  match resp with
  | .failure msg =>
    if goStringContains msg "InvalidInstanceID.NotFound" then .ret false none none
    else .ret false none (some msg)
  | .success reservations =>
    match reservations with
    | [] => .ret false none none
    | r0 :: _ =>
      match r0 with
      | [] => .panics "index out of range: Instances"
      | i0 :: _ => .ret true (some i0) none

/-- The finalizer token the driver adds and removes. -/
def finalizerToken : String := "ec2instance.compute.cloud.com"

/-- Observable side effects of one reconcile pass, in order: provider
calls (delete, describe check, create) and store writes (r.Update with
the finalizer list written, r.Status().Update with the status written). -/
inductive DriverAction
  | callDelete
  | callCheck (instanceID : String)
  | callCreate
  | updateResource (finalizers : List String)
  | updateStatus (st : Ec2InstanceStatus)
deriving Repr, DecidableEq

/-- ctrl.Result restricted to the fields the driver sets. -/
structure CtrlResult where
  Requeue : Bool
  RequeueAfterSeconds : Nat
deriving Repr, DecidableEq

/-- Outcome of r.Get at the top of Reconcile. -/
inductive GetResult
  | found (inst : Ec2Instance)
  | notFound
  | getFailed (e : String)
deriving Repr, DecidableEq

/-- Environment of one Reconcile pass: the loaded resource and the
responses of every external call the pass may make. -/
structure ReconcileEnv where
  getResult : GetResult
  deleteEnv : DeleteEnv
  updateResult : Except String Unit
  checkResponse : DescribeResponse
  createEnv : CreateEnv
  statusUpdateResult : Except String Unit
deriving Repr

/-- The Go pair (ctrl.Result, error) returned by Reconcile together with
the ordered action trace, or a panic with the actions performed before it. -/
inductive ReconcileOutcome
  | done (res : CtrlResult) (e : Option String) (actions : List DriverAction)
  | panics (msg : String) (actions : List DriverAction)
deriving Repr, DecidableEq

/-- The action trace of an outcome. -/
def ReconcileOutcome.actions : ReconcileOutcome → List DriverAction
  | .done _ _ a => a
  | .panics _ a => a

/-- Whether the pass requested an immediate retry (Requeue: true). -/
def ReconcileOutcome.requeueRequested : ReconcileOutcome → Bool
  | .done r _ _ => r.Requeue
  | .panics _ _ => false

/-- The all-empty status the driver writes on a describe error. -/
def clearedStatus : Ec2InstanceStatus := ⟨"", "", "", "", "", ""⟩

/-- Field-by-field copy of CreatedInstanceInfo into status
(controller lines 138-143). -/
def projectInfo (info : CreatedInstanceInfo) : Ec2InstanceStatus :=
  ⟨info.InstanceID, info.State, info.PublicIP, info.PrivateIP,
   info.PublicDNS, info.PrivateDNS⟩

/-- Reconcile (internal/controller/ec2instance_controller.go lines 52-154),
with the loaded resource and every external response drawn from env.
Deletion branch: delete, then remove the finalizer and persist.
Verification branch (InstanceID non-empty): check; on a check error clear
all six status fields and requeue; when the instance is absent set State
to "Unknown" and PublicIP to empty (keeping InstanceID) with no requeue;
when present and State was "Unknown" refresh State and PublicIP by
dereferencing the record's pointers; otherwise terminal no-op.
Creation branch: append the finalizer and persist it, then create; on the
(nil, nil) create result line 138 dereferences the nil pointer. -/
def Reconcile (env : ReconcileEnv) : ReconcileOutcome :=
  match env.getResult with
  | .notFound => .done ⟨false, 0⟩ none []
  | .getFailed e => .done ⟨false, 0⟩ (some e) []
  | .found ec2Instance =>
    if !ec2Instance.DeletionTimestampIsZero then
      match deleteEc2Instance env.deleteEnv with
      | .panics m => .panics m [.callDelete]
      | .ret _ (some e) => .done ⟨true, 0⟩ (some e) [.callDelete]
      | .ret _ none =>
        let fins := ec2Instance.Finalizers.filter (fun f => f != finalizerToken)
        match env.updateResult with
        | .error e => .done ⟨true, 0⟩ (some e) [.callDelete, .updateResource fins]
        | .ok _ => .done ⟨false, 0⟩ none [.callDelete, .updateResource fins]
    else if ec2Instance.Status.InstanceID != "" then
      match checkEC2InstanceExists env.checkResponse with
      | .panics m => .panics m [.callCheck ec2Instance.Status.InstanceID]
      | .ret instanceExist instState errOpt =>
        match errOpt with
        | some _ =>
          match env.statusUpdateResult with
          | .error e2 => .done ⟨true, 0⟩ (some e2)
              [.callCheck ec2Instance.Status.InstanceID, .updateStatus clearedStatus]
          | .ok _ => .done ⟨true, 0⟩ none
              [.callCheck ec2Instance.Status.InstanceID, .updateStatus clearedStatus]
        | none =>
          if !instanceExist then
            .done ⟨false, 0⟩ none
              [.callCheck ec2Instance.Status.InstanceID,
               .updateStatus { ec2Instance.Status with State := "Unknown", PublicIP := "" }]
          else if instanceExist && ec2Instance.Status.State == "Unknown" then
            match instState with
            | none => .panics "nil pointer dereference: instanceState"
                [.callCheck ec2Instance.Status.InstanceID]
            | some i =>
              match i.StateName with
              | none => .panics "nil pointer dereference: State"
                  [.callCheck ec2Instance.Status.InstanceID]
              | some stName =>
                match i.PublicIpAddress with
                | none => .panics "nil pointer dereference: PublicIpAddress"
                    [.callCheck ec2Instance.Status.InstanceID]
                | some pip =>
                    .done ⟨false, 0⟩ none
                      [.callCheck ec2Instance.Status.InstanceID,
                       .updateStatus { ec2Instance.Status with State := stName, PublicIP := pip }]
          else
            .done ⟨false, 0⟩ none [.callCheck ec2Instance.Status.InstanceID]
    else
      let fins := ec2Instance.Finalizers ++ [finalizerToken]
      match env.updateResult with
      | .error e => .done ⟨true, 0⟩ (some e) [.updateResource fins]
      | .ok _ =>
        match createEc2Instance env.createEnv with
        | .errOut e => .done ⟨false, 0⟩ (some e) [.updateResource fins, .callCreate]
        | .panics m => .panics m [.updateResource fins, .callCreate]
        | .nilNil => .panics "nil pointer dereference: createdInstanceInfo"
            [.updateResource fins, .callCreate]
        | .ok info =>
          match env.statusUpdateResult with
          | .error e => .done ⟨false, 0⟩ (some e)
              [.updateResource fins, .callCreate, .updateStatus (projectInfo info)]
          | .ok _ => .done ⟨false, 1⟩ none
              [.updateResource fins, .callCreate, .updateStatus (projectInfo info)]

/-! Concrete fixtures used by witnesses and counterexamples. -/

/-- The round-trip record of the spec: id, running state, both IPs, no DNS. -/
def recNoDns : Ec2TypesInstance :=
  ⟨some "i-123", some "running", some "1.2.3.4", some "10.0.0.5", none, none⟩

/-- Create environment whose RunInstances and DescribeInstances both return
the no-DNS record. -/
def envC1create : CreateEnv := ⟨.ok [recNoDns], .ok (), .ok [[recNoDns]]⟩

/-- A private-subnet-like record: running, no public IP, no public DNS. -/
def recPrivate : Ec2TypesInstance :=
  ⟨some "i-777", some "running", none, some "10.0.0.7", none,
   some "ip-10-0-0-7.ec2.internal"⟩

/-- A resource in the verification path with status state "Unknown". -/
def instUnknown : Ec2Instance :=
  ⟨true, ["ec2instance.compute.cloud.com"], ⟨"i-777", "Unknown", "", "", "", ""⟩⟩

/-- Reconcile environment: verification pass where describe finds the
private-subnet record (no public IP) for a status in state "Unknown". -/
def envVerifyPrivate : ReconcileEnv :=
  ⟨.found instUnknown, ⟨.ok [some "shutting-down"], .ok ()⟩, .ok (),
   .success [[recPrivate]], ⟨.ok [], .ok (), .ok []⟩, .ok ()⟩

/-- Create environment whose DescribeInstances returns the private-subnet
record (absent PublicDnsName). -/
def envCreatePrivate : CreateEnv := ⟨.ok [recPrivate], .ok (), .ok [[recPrivate]]⟩

/-- C1. The claim expects the post-create projection to map the no-DNS
record to publicDNS = "" and privateDNS = "". On the code DerefString maps
an absent field to the sentinel "\x3cnil\x3e", not the empty string, and the
create path never even reaches the projection for this record: the debug
print dereferences the absent PublicDnsName and the pass panics. -/
theorem C1_counterexample :
    DerefString recNoDns.PublicDnsName = "<nil>" ∧
    DerefString recNoDns.PrivateDnsName = "<nil>" ∧
    ("<nil>" : String) ≠ "" ∧
    createEc2Instance envC1create = .panics "nil pointer dereference: PublicDnsName" := by
  refine ⟨rfl, rfl, by decide, rfl⟩

/-- A record like the round-trip one but with its public DNS present, so
that the create path survives the unconditional dereference. -/
def recC1amended : Ec2TypesInstance :=
  ⟨some "i-123", some "running", some "1.2.3.4", some "10.0.0.5",
   some "ec2-1-2-3-4.compute.amazonaws.com", none⟩

/-- C1 (amended). The status projection after a successful create maps each
absent optional field to the sentinel string "\x3cnil\x3e" (DerefString), never
the empty string: the record with id "i-123", state "running", both IPs,
public DNS present and private DNS absent projects to exactly those values
with privateDNS = "\x3cnil\x3e"; and DerefString of an absent field is "\x3cnil\x3e". -/
theorem C1_amended_projection :
    createEc2Instance ⟨.ok [recC1amended], .ok (), .ok [[recC1amended]]⟩ =
      .ok ⟨"i-123", "running", "1.2.3.4", "10.0.0.5",
           "ec2-1-2-3-4.compute.amazonaws.com", "<nil>"⟩ ∧
    DerefString none = "<nil>" :=
  ⟨rfl, rfl⟩

/-- C2. The projection paths are not total on absent optional fields: the
post-create path dereferences PublicDnsName unconditionally in the debug
print (aws.go line 139) and panics on the private-subnet record, and the
verification refresh dereferences PublicIpAddress unconditionally
(controller line 114) and panics when the running instance has no public
IP; the claim (and the code's own comments) say absent fields are handled
safely. -/
theorem C2_nil_dereference :
    createEc2Instance envCreatePrivate = .panics "nil pointer dereference: PublicDnsName" ∧
    Reconcile envVerifyPrivate = .panics "nil pointer dereference: PublicIpAddress"
      [.callCheck "i-777"] := by
  refine ⟨rfl, by decide⟩

/-- A healthy verification-path resource with instance id "i-999". -/
def instI999 : Ec2Instance :=
  ⟨true, ["ec2instance.compute.cloud.com"],
   ⟨"i-999", "running", "3.3.3.3", "10.0.0.9", "pub.dns", "priv.dns"⟩⟩

/-- Reconcile environment: verification pass where the describe call fails
with a genuine InvalidInstanceID.NotFound error. -/
def envNotFound : ReconcileEnv :=
  ⟨.found instI999, ⟨.ok [some "x"], .ok ()⟩, .ok (),
   .failure "InvalidInstanceID.NotFound: The instance ID i-999 does not exist",
   ⟨.ok [], .ok (), .ok []⟩, .ok ()⟩

/-- C3. The claim expects a not-found describe to clear all status fields
(in particular instanceID becomes empty) and request a retry. On the code
the not-found branch keeps instanceID "i-999", writes state "Unknown" and
empty publicIP only, and returns with no retry requested. -/
theorem C3_counterexample :
    Reconcile envNotFound = .done ⟨false, 0⟩ none
      [.callCheck "i-999",
       .updateStatus ⟨"i-999", "Unknown", "", "10.0.0.9", "pub.dns", "priv.dns"⟩] ∧
    ("i-999" : String) ≠ "" := by
  refine ⟨by decide, by decide⟩

/-- C3 (amended). On a verification pass where the describe reports the
instance not found (checkEC2InstanceExists returns the false/nil/nil
triple, covering both the NotFound error and the empty-reservations case),
the pass keeps status.instanceID, writes state "Unknown" and an empty
publicIP, and terminates without requesting a retry; only a non-not-found
describe error clears all status fields and requeues. -/
theorem C3_amended_not_found_marks_unknown (env : ReconcileEnv) (inst : Ec2Instance)
    (hget : env.getResult = .found inst)
    (hts : inst.DeletionTimestampIsZero = true)
    (hid : inst.Status.InstanceID ≠ "")
    (hcheck : checkEC2InstanceExists env.checkResponse = .ret false none none) :
    Reconcile env = .done ⟨false, 0⟩ none
      [.callCheck inst.Status.InstanceID,
       .updateStatus { inst.Status with State := "Unknown", PublicIP := "" }] := by
  simp [Reconcile, hget, hts, hid, hcheck]

/-- Witness for C3: the amended statement evaluated on the concrete
not-found environment. -/
theorem C3_amended_witness :
    Reconcile envNotFound = .done ⟨false, 0⟩ none
      [.callCheck "i-999",
       .updateStatus ⟨"i-999", "Unknown", "", "10.0.0.9", "pub.dns", "priv.dns"⟩] := by
  have h := C3_amended_not_found_marks_unknown envNotFound instI999 rfl rfl
    (by decide) (by decide)
  simpa [instI999] using h

/-- C4. On a pass over a resource not marked for deletion whose loaded
status.instanceID is non-empty, the driver never invokes the provider
create call: callCreate is absent from the action trace of Reconcile. -/
theorem C4_no_create_when_id_nonempty (env : ReconcileEnv) (inst : Ec2Instance)
    (hget : env.getResult = .found inst)
    (hts : inst.DeletionTimestampIsZero = true)
    (hid : inst.Status.InstanceID ≠ "") :
    DriverAction.callCreate ∉ (Reconcile env).actions := by
  cases hc : checkEC2InstanceExists env.checkResponse with
  | panics m =>
      simp [Reconcile, hget, hts, hid, hc, ReconcileOutcome.actions]
  | ret exist instState errOpt =>
      cases errOpt with
      | some e =>
          cases hsu : env.statusUpdateResult <;>
            simp [Reconcile, hget, hts, hid, hc, hsu, ReconcileOutcome.actions]
      | none =>
          cases exist with
          | false =>
              simp [Reconcile, hget, hts, hid, hc, ReconcileOutcome.actions]
          | true =>
              by_cases hst : inst.Status.State = "Unknown"
              · cases instState with
                | none =>
                    simp [Reconcile, hget, hts, hid, hc, hst, ReconcileOutcome.actions]
                | some i =>
                    cases hsn : i.StateName with
                    | none =>
                        simp [Reconcile, hget, hts, hid, hc, hst, hsn,
                              ReconcileOutcome.actions]
                    | some stName =>
                        cases hip : i.PublicIpAddress <;>
                          simp [Reconcile, hget, hts, hid, hc, hst, hsn, hip,
                                ReconcileOutcome.actions]
              · simp [Reconcile, hget, hts, hid, hc, hst, ReconcileOutcome.actions]

/-- Witness for C4: no create action on the concrete steady-state pass. -/
theorem C4_witness :
    DriverAction.callCreate ∉ (Reconcile envNotFound).actions :=
  C4_no_create_when_id_nonempty envNotFound instI999 rfl rfl (by decide)

/-- In deleteEc2Instance, a returned nil error implies the returned bool is
true: the error-free return exists only after the terminated waiter. -/
theorem deleteEc2Instance_ret_none (denv : DeleteEnv) (b : Bool)
    (h : deleteEc2Instance denv = .ret b none) : b = true := by
  unfold deleteEc2Instance at h
  rcases denv with ⟨tr, tw⟩
  rcases tr with e | l
  · simp at h
  · rcases l with _ | ⟨t0, rest⟩
    · simp at h
    · rcases t0 with _ | s
      · simp at h
      · rcases tw with e | u
        · simp at h
        · simp at h
          exact h

/-- C5. On a pass over a resource marked for deletion: a failing
termination returns the error with an immediate retry and performs no
store write at all (in particular the finalizer stays present), and any
finalizer-removing write in the trace can only follow a termination the
provider confirmed (deleteEc2Instance returned true with no error). -/
theorem C5_deletion_safety (env : ReconcileEnv) (inst : Ec2Instance)
    (hget : env.getResult = .found inst)
    (hts : inst.DeletionTimestampIsZero = false) :
    (∀ b e, deleteEc2Instance env.deleteEnv = .ret b (some e) →
        Reconcile env = .done ⟨true, 0⟩ (some e) [.callDelete]) ∧
    (∀ fins, DriverAction.updateResource fins ∈ (Reconcile env).actions →
        deleteEc2Instance env.deleteEnv = .ret true none) := by
  constructor
  · intro b e h
    simp [Reconcile, hget, hts, h]
  · intro fins hmem
    cases hd : deleteEc2Instance env.deleteEnv with
    | panics m =>
        rw [Reconcile, hget] at hmem
        simp [hts, hd, ReconcileOutcome.actions] at hmem
    | ret b eopt =>
        cases eopt with
        | none =>
            have hb := deleteEc2Instance_ret_none env.deleteEnv b hd
            subst hb
            rfl
        | some e =>
            rw [Reconcile, hget] at hmem
            simp [hts, hd, ReconcileOutcome.actions] at hmem

/-- A resource marked for deletion that still carries the finalizer. -/
def instDeleting : Ec2Instance :=
  ⟨false, ["ec2instance.compute.cloud.com"], ⟨"i-555", "running", "", "", "", ""⟩⟩

/-- Reconcile environment: deletion pass whose TerminateInstances call fails. -/
def envDeleteFail : ReconcileEnv :=
  ⟨.found instDeleting, ⟨.error "TerminateInstances failed", .ok ()⟩, .ok (),
   .success [], ⟨.ok [], .ok (), .ok []⟩, .ok ()⟩

/-- Witness for C5: a failing termination on the concrete environment
returns the error, requests a retry, and writes nothing. -/
theorem C5_witness :
    Reconcile envDeleteFail = .done ⟨true, 0⟩ (some "TerminateInstances failed")
      [.callDelete] :=
  (C5_deletion_safety envDeleteFail instDeleting rfl rfl).1 false
    "TerminateInstances failed" rfl

/-- C6. On a creation-path pass (not marked for deletion, empty
status.instanceID): the very first action of the trace is the store write
persisting the appended finalizer token, so it strictly precedes any
create call; and when that persist fails the pass returns the error with
an immediate retry and performs no create at all. -/
theorem C6_finalizer_persisted_before_create (env : ReconcileEnv) (inst : Ec2Instance)
    (hget : env.getResult = .found inst)
    (hts : inst.DeletionTimestampIsZero = true)
    (hid : inst.Status.InstanceID = "") :
    (Reconcile env).actions.head? =
        some (.updateResource (inst.Finalizers ++ [finalizerToken])) ∧
    (∀ e, env.updateResult = .error e →
        Reconcile env = .done ⟨true, 0⟩ (some e)
          [.updateResource (inst.Finalizers ++ [finalizerToken])]) := by
  constructor
  · cases hu : env.updateResult with
    | error e =>
        simp [Reconcile, hget, hts, hid, hu, ReconcileOutcome.actions]
    | ok u =>
        cases hc : createEc2Instance env.createEnv <;>
          cases hsu : env.statusUpdateResult <;>
            simp [Reconcile, hget, hts, hid, hu, hc, hsu, ReconcileOutcome.actions]
  · intro e he
    simp [Reconcile, hget, hts, hid, he]

/-- A fresh resource: no finalizers yet, all status fields empty. -/
def instFresh : Ec2Instance := ⟨true, [], ⟨"", "", "", "", "", ""⟩⟩

/-- Reconcile environment: creation pass whose finalizer persist fails. -/
def envFinalizerFail : ReconcileEnv :=
  ⟨.found instFresh, ⟨.ok [some "x"], .ok ()⟩,
   .error "Operation cannot be fulfilled: conflict",
   .success [], ⟨.ok [], .ok (), .ok []⟩, .ok ()⟩

/-- Witness for C6: on the concrete environment the finalizer write comes
first, and its failure aborts the pass before any create. -/
theorem C6_witness :
    (Reconcile envFinalizerFail).actions.head? =
        some (.updateResource ["ec2instance.compute.cloud.com"]) ∧
    Reconcile envFinalizerFail = .done ⟨true, 0⟩
      (some "Operation cannot be fulfilled: conflict")
      [.updateResource ["ec2instance.compute.cloud.com"]] := by
  have h := C6_finalizer_persisted_before_create envFinalizerFail instFresh rfl rfl rfl
  exact ⟨by simpa [instFresh, finalizerToken] using h.1,
         by simpa [instFresh, finalizerToken] using h.2 _ rfl⟩

/-- Reconcile environment: verification pass whose describe fails with a
non-not-found error. -/
def envQueryFail : ReconcileEnv :=
  ⟨.found instI999, ⟨.ok [some "x"], .ok ()⟩, .ok (),
   .failure "RequestLimitExceeded: Request limit exceeded.",
   ⟨.ok [], .ok (), .ok []⟩, .ok ()⟩

/-- C7. The claim says a non-not-found query failure is handled identically
to not-found (both clearing status and retrying). On the code the two
outcomes differ: the non-not-found failure clears all six status fields
and requeues, while not-found keeps instanceID, writes state "Unknown",
and requests no retry. -/
theorem C7_counterexample :
    Reconcile envQueryFail = .done ⟨true, 0⟩ none
      [.callCheck "i-999", .updateStatus clearedStatus] ∧
    Reconcile envNotFound = .done ⟨false, 0⟩ none
      [.callCheck "i-999",
       .updateStatus ⟨"i-999", "Unknown", "", "10.0.0.9", "pub.dns", "priv.dns"⟩] ∧
    clearedStatus ≠ ⟨"i-999", "Unknown", "", "10.0.0.9", "pub.dns", "priv.dns"⟩ := by
  refine ⟨by decide, by decide, by decide⟩

/-- C7 (amended). A verification-pass query failure that is not a
not-found clears all six status fields to empty and requests an immediate
retry; this differs from the not-found handling, which keeps instanceID
and requests no retry. -/
theorem C7_amended_error_clears_and_retries (env : ReconcileEnv) (inst : Ec2Instance)
    (msg : String)
    (hget : env.getResult = .found inst)
    (hts : inst.DeletionTimestampIsZero = true)
    (hid : inst.Status.InstanceID ≠ "")
    (hcheck : checkEC2InstanceExists env.checkResponse = .ret false none (some msg)) :
    (Reconcile env).actions =
      [.callCheck inst.Status.InstanceID, .updateStatus clearedStatus] ∧
    (Reconcile env).requeueRequested = true := by
  cases hsu : env.statusUpdateResult <;>
    simp [Reconcile, hget, hts, hid, hcheck, hsu, ReconcileOutcome.actions,
          ReconcileOutcome.requeueRequested]

/-- Witness for C7: the amended statement on the concrete failing query. -/
theorem C7_amended_witness :
    (Reconcile envQueryFail).actions =
      [.callCheck "i-999", .updateStatus clearedStatus] ∧
    (Reconcile envQueryFail).requeueRequested = true := by
  have h := C7_amended_error_clears_and_retries envQueryFail instI999
    "RequestLimitExceeded: Request limit exceeded." rfl rfl (by decide) (by decide)
  simpa [instI999] using h

/-- C8. On a creation-path pass whose provider create call returns an
error, Reconcile returns that error value unchanged with no requeue hint,
and the trace contains no status write. -/
theorem C8_create_error_surfaced (env : ReconcileEnv) (inst : Ec2Instance) (e : String)
    (hget : env.getResult = .found inst)
    (hts : inst.DeletionTimestampIsZero = true)
    (hid : inst.Status.InstanceID = "")
    (hupd : env.updateResult = .ok ())
    (hcr : createEc2Instance env.createEnv = .errOut e) :
    Reconcile env = .done ⟨false, 0⟩ (some e)
      [.updateResource (inst.Finalizers ++ [finalizerToken]), .callCreate] := by
  simp [Reconcile, hget, hts, hid, hupd, hcr]

/-- Reconcile environment: creation pass whose RunInstances call fails. -/
def envCreateFail : ReconcileEnv :=
  ⟨.found instFresh, ⟨.ok [some "x"], .ok ()⟩, .ok (), .success [],
   ⟨.error "AuthFailure: credentials invalid", .ok (), .ok []⟩, .ok ()⟩

/-- Witness for C8: the concrete failing create surfaces its error with no
status write. -/
theorem C8_witness :
    Reconcile envCreateFail = .done ⟨false, 0⟩
      (some "failed to create EC2 instance: AuthFailure: credentials invalid")
      [.updateResource ["ec2instance.compute.cloud.com"], .callCreate] := by
  have h := C8_create_error_surfaced envCreateFail instFresh
    "failed to create EC2 instance: AuthFailure: credentials invalid"
    rfl rfl rfl rfl rfl
  simpa [instFresh, finalizerToken] using h

/-- C9. On a verification pass where the instance is found running and the
loaded status state is not "Unknown", the pass performs no store write and
requests no retry: the outcome is terminal with only the describe call in
its trace. -/
theorem C9_steady_state_noop (env : ReconcileEnv) (inst : Ec2Instance)
    (i : Ec2TypesInstance)
    (hget : env.getResult = .found inst)
    (hts : inst.DeletionTimestampIsZero = true)
    (hid : inst.Status.InstanceID ≠ "")
    (hcheck : checkEC2InstanceExists env.checkResponse = .ret true (some i) none)
    (hstate : inst.Status.State ≠ "Unknown") :
    Reconcile env = .done ⟨false, 0⟩ none [.callCheck inst.Status.InstanceID] := by
  simp [Reconcile, hget, hts, hid, hcheck, hstate]

/-- The running record the provider reports for instance "i-999". -/
def recRunning : Ec2TypesInstance :=
  ⟨some "i-999", some "running", some "3.3.3.3", some "10.0.0.9",
   some "pub.dns", some "priv.dns"⟩

/-- Reconcile environment: steady-state verification pass. -/
def envSteady : ReconcileEnv :=
  ⟨.found instI999, ⟨.ok [some "x"], .ok ()⟩, .ok (), .success [[recRunning]],
   ⟨.ok [], .ok (), .ok []⟩, .ok ()⟩

/-- Witness for C9: the concrete steady-state pass is a terminal no-op. -/
theorem C9_witness :
    Reconcile envSteady = .done ⟨false, 0⟩ none [.callCheck "i-999"] := by
  have h := C9_steady_state_noop envSteady instI999 recRunning rfl rfl
    (by decide) rfl (by decide)
  simpa [instI999] using h

/-- C10. When RunInstances succeeds with an empty instance list,
createEc2Instance returns the Go (nil, nil) pair, and the creation path of
Reconcile then reads fields of that nil pointer unconditionally: the pass
ends in a nil-dereference panic rather than a returned error. -/
theorem C10_nil_create_result_panics (env : ReconcileEnv) (inst : Ec2Instance)
    (hget : env.getResult = .found inst)
    (hts : inst.DeletionTimestampIsZero = true)
    (hid : inst.Status.InstanceID = "")
    (hupd : env.updateResult = .ok ())
    (hrun : env.createEnv.runInstances = .ok []) :
    createEc2Instance env.createEnv = .nilNil ∧
    Reconcile env = .panics "nil pointer dereference: createdInstanceInfo"
      [.updateResource (inst.Finalizers ++ [finalizerToken]), .callCreate] := by
  have hcr : createEc2Instance env.createEnv = .nilNil := by
    simp [createEc2Instance, hrun]
  exact ⟨hcr, by simp [Reconcile, hget, hts, hid, hupd, hcr]⟩

/-- Reconcile environment: creation pass where RunInstances succeeds with
an empty instance list. -/
def envEmptyRun : ReconcileEnv :=
  ⟨.found instFresh, ⟨.ok [some "x"], .ok ()⟩, .ok (), .success [],
   ⟨.ok [], .ok (), .ok []⟩, .ok ()⟩

/-- Witness for C10: the concrete empty RunInstances result makes the pass
panic after the finalizer write and the create call. -/
theorem C10_witness :
    createEc2Instance envEmptyRun.createEnv = .nilNil ∧
    Reconcile envEmptyRun = .panics "nil pointer dereference: createdInstanceInfo"
      [.updateResource ["ec2instance.compute.cloud.com"], .callCreate] := by
  have h := C10_nil_create_result_panics envEmptyRun instFresh rfl rfl rfl rfl rfl
  exact ⟨h.1, by simpa [instFresh, finalizerToken] using h.2⟩
